import Mathlib

/-!
Verification of the RustDDS interoperability shapes program
(src/RustDDS/src/main.rs): a shallow embedding of the bouncing-shape
motion model and of the event-driven control loop that the source keeps
in a commented block, together with theorems about the documented
properties of both.

Machine integers (i32) of the source are modelled as unbounded integers;
this agrees with the source wherever no arithmetic overflows i32, and all
concrete inputs used below are far from the i32 range limits.
-/

/-- The Shape sample type from main.rs (fields color, x, y, shapesize). -/
structure Shape where
  color : String
  x : Int
  y : Int
  shapesize : Int
deriving DecidableEq, Repr

/-- Canvas width constant DA_WIDTH from main.rs. -/
def DA_WIDTH : Int := 240

/-- Canvas height constant DA_HEIGHT from main.rs. -/
def DA_HEIGHT : Int := 270

/-- The clearance computed at the top of move_shape:
shape.shapesize / 2 + 1, where / is Rust i32 division, which truncates
toward zero; Int.tdiv is the same truncating division. -/
def half_size (s : Shape) : Int := s.shapesize.tdiv 2 + 1

/-- Direct translation of move_shape from main.rs.  The source mutates
local variables x, y, xv_new, yv_new through four sequential if
statements; here each mutation step is a separate let binding
(single-assignment form), preserving the order of the checks and the
fact that the two checks per axis are sequential, not mutually
exclusive. -/
def move_shape (shape : Shape) (xv : Int) (yv : Int) : Shape × Int × Int :=
  let x1 := shape.x + xv
  let y1 := shape.y + yv
  let x2 := if x1 < half_size shape then half_size shape else x1
  let xv2 := if x1 < half_size shape then -xv else xv
  let x3 := if x2 > DA_WIDTH - half_size shape then DA_WIDTH - half_size shape else x2
  let xv3 := if x2 > DA_WIDTH - half_size shape then -xv else xv2
  let y2 := if y1 < half_size shape then half_size shape else y1
  let yv2 := if y1 < half_size shape then -yv else yv
  let y3 := if y2 > DA_HEIGHT - half_size shape then DA_HEIGHT - half_size shape else y2
  let yv3 := if y2 > DA_HEIGHT - half_size shape then -yv else yv2
  ({ color := shape.color, x := x3, y := y3, shapesize := shape.shapesize }, xv3, yv3)

/-- Claim C7: for every input shape and every velocity pair, the shape
returned by move_shape has the same color and the same shapesize as the
input shape; only x and y may change. -/
theorem move_shape_preserves_color_size (s : Shape) (xv yv : Int) :
    (move_shape s xv yv).1.color = s.color ∧
    (move_shape s xv yv).1.shapesize = s.shapesize :=
  ⟨rfl, rfl⟩

/-- Claim C9: for every input whatsoever, with no precondition on shape
size or position, each velocity component returned by move_shape is
exactly the input component or its negation, hence has the same absolute
value. -/
theorem move_shape_velocity_magnitude (s : Shape) (xv yv : Int) :
    ((move_shape s xv yv).2.1 = xv ∨ (move_shape s xv yv).2.1 = -xv) ∧
    ((move_shape s xv yv).2.2 = yv ∨ (move_shape s xv yv).2.2 = -yv) ∧
    (move_shape s xv yv).2.1.natAbs = xv.natAbs ∧
    (move_shape s xv yv).2.2.natAbs = yv.natAbs := by
  simp only [move_shape]
  split_ifs <;> simp [Int.natAbs_neg]

/-- Claim C6: on shape BLUE (120, 135) of size 30 with velocities 3 and
-4, move_shape computes half_size 16 and returns (123, 131) with both
velocities unchanged; on the same shape with x 14 and x velocity -5 it
returns x 16 and x velocity 5. -/
theorem move_shape_concrete :
    half_size ⟨"BLUE", 120, 135, 30⟩ = 16 ∧
    move_shape ⟨"BLUE", 120, 135, 30⟩ 3 (-4) = (⟨"BLUE", 123, 131, 30⟩, 3, -4) ∧
    (move_shape ⟨"BLUE", 14, 135, 30⟩ (-5) (-4)).1.x = 16 ∧
    (move_shape ⟨"BLUE", 14, 135, 30⟩ (-5) (-4)).2.1 = 5 := by
  refine ⟨rfl, ?_, rfl, rfl⟩
  rfl

/-- Helper: half_size ignores the x coordinate. -/
theorem half_size_update_x (s : Shape) (x2 : Int) :
    half_size { s with x := x2 } = half_size s := rfl

/-- Helper: half_size ignores the y coordinate. -/
theorem half_size_update_y (s : Shape) (y2 : Int) :
    half_size { s with y := y2 } = half_size s := rfl

/-- The concrete BLUE shape used by the design document. -/
def blueShape : Shape := { color := "BLUE", x := 120, y := 135, shapesize := 30 }

/-- Claim C1: for every shape whose coordinates satisfy
half_size ≤ x ≤ DA_WIDTH - half_size and half_size ≤ y ≤ DA_HEIGHT - half_size,
and for all velocities, move_shape returns coordinates that remain inside
those closed intervals. -/
theorem move_shape_preserves_bounds (s : Shape) (xv yv : Int)
    (hx1 : half_size s ≤ s.x) (hx2 : s.x ≤ DA_WIDTH - half_size s)
    (hy1 : half_size s ≤ s.y) (hy2 : s.y ≤ DA_HEIGHT - half_size s) :
    half_size s ≤ (move_shape s xv yv).1.x ∧
    (move_shape s xv yv).1.x ≤ DA_WIDTH - half_size s ∧
    half_size s ≤ (move_shape s xv yv).1.y ∧
    (move_shape s xv yv).1.y ≤ DA_HEIGHT - half_size s := by
  simp only [move_shape]
  split_ifs <;> simp_all <;> omega

/-- Witness for C1 at the concrete BLUE shape with velocities 3 and -4. -/
theorem move_shape_preserves_bounds_witness :
    (half_size blueShape ≤ blueShape.x ∧ blueShape.x ≤ DA_WIDTH - half_size blueShape ∧
     half_size blueShape ≤ blueShape.y ∧ blueShape.y ≤ DA_HEIGHT - half_size blueShape) ∧
    (half_size blueShape ≤ (move_shape blueShape 3 (-4)).1.x ∧
     (move_shape blueShape 3 (-4)).1.x ≤ DA_WIDTH - half_size blueShape ∧
     half_size blueShape ≤ (move_shape blueShape 3 (-4)).1.y ∧
     (move_shape blueShape 3 (-4)).1.y ≤ DA_HEIGHT - half_size blueShape) :=
  ⟨by decide,
   move_shape_preserves_bounds blueShape 3 (-4) (by decide) (by decide) (by decide) (by decide)⟩

/-- Claim C2: for every shape within bounds and every velocity, if the
tentative x position shape.x + xv falls below half_size or above
DA_WIDTH - half_size, then move_shape returns the negated x velocity
(opposite sign, same magnitude); moreover the returned y and y velocity
do not depend on the x coordinate or x velocity at all, and the returned
x and x velocity do not depend on the y coordinate or y velocity. -/
theorem move_shape_reflection (s : Shape) (xv yv x2 xv2 y2 yv2 : Int)
    (hx1 : half_size s ≤ s.x) (hx2 : s.x ≤ DA_WIDTH - half_size s)
    (hy1 : half_size s ≤ s.y) (hy2 : s.y ≤ DA_HEIGHT - half_size s)
    (hout : s.x + xv < half_size s ∨ DA_WIDTH - half_size s < s.x + xv) :
    (move_shape s xv yv).2.1 = -xv ∧
    (move_shape s xv yv).2.1.natAbs = xv.natAbs ∧
    ((move_shape { s with x := x2 } xv2 yv).1.y = (move_shape s xv yv).1.y ∧
     (move_shape { s with x := x2 } xv2 yv).2.2 = (move_shape s xv yv).2.2) ∧
    ((move_shape { s with y := y2 } xv yv2).1.x = (move_shape s xv yv).1.x ∧
     (move_shape { s with y := y2 } xv yv2).2.1 = (move_shape s xv yv).2.1) := by
  have hflip : (move_shape s xv yv).2.1 = -xv := by
    simp only [move_shape]
    split_ifs <;> first | rfl | omega
  refine ⟨hflip, by rw [hflip, Int.natAbs_neg], ⟨?_, ?_⟩, ⟨?_, ?_⟩⟩ <;>
    simp [move_shape, half_size]

/-- Witness for C2 at the BLUE shape moved to x = 20 with x velocity -10,
which would reach the tentative position 10 below half_size 16. -/
theorem move_shape_reflection_witness :
    (half_size { blueShape with x := 20 } ≤ ({ blueShape with x := 20 } : Shape).x ∧
     ({ blueShape with x := 20 } : Shape).x ≤ DA_WIDTH - half_size { blueShape with x := 20 } ∧
     ({ blueShape with x := 20 } : Shape).x + (-10) < half_size { blueShape with x := 20 }) ∧
    ((move_shape { blueShape with x := 20 } (-10) 2).2.1 = -(-10) ∧
     (move_shape { { blueShape with x := 20 } with y := 77 } (-10) 6).1.x
       = (move_shape { blueShape with x := 20 } (-10) 2).1.x) :=
  ⟨by decide,
   (move_shape_reflection { blueShape with x := 20 } (-10) 2 50 7 77 6
      (by decide) (by decide) (by decide) (by decide) (Or.inl (by decide))).1,
   (move_shape_reflection { blueShape with x := 20 } (-10) 2 50 7 77 6
      (by decide) (by decide) (by decide) (by decide) (Or.inl (by decide))).2.2.2.1⟩

/-- Claim C10: when the shape is so large that
DA_WIDTH - half_size < half_size and the tentative x falls below half_size,
both sequential x clamp branches fire and the outcome is determinate:
x becomes DA_WIDTH - half_size and the x velocity becomes -xv (both
branches assign the same negated velocity); symmetrically and
independently, when DA_HEIGHT - half_size < half_size and the tentative y
falls below half_size, y becomes DA_HEIGHT - half_size and the y velocity
becomes -yv.  Each conclusion needs only the hypotheses of its own
axis. -/
theorem move_shape_oversized_double_clamp (s : Shape) (xv yv : Int) :
    (DA_WIDTH - half_size s < half_size s → s.x + xv < half_size s →
      (move_shape s xv yv).1.x = DA_WIDTH - half_size s ∧
      (move_shape s xv yv).2.1 = -xv) ∧
    (DA_HEIGHT - half_size s < half_size s → s.y + yv < half_size s →
      (move_shape s xv yv).1.y = DA_HEIGHT - half_size s ∧
      (move_shape s xv yv).2.2 = -yv) := by
  constructor <;> intro h1 h2 <;> simp only [move_shape] <;>
    split_ifs <;> simp_all <;> omega

/-- Witness for C10.  The x part at a 250-sized shape, whose half_size
126 exceeds DA_WIDTH - 126 = 114 but not DA_HEIGHT - 126 = 144, so only
the x axis is oversized; the y part at a 500-sized shape, whose
half_size 251 also exceeds DA_HEIGHT - 251 = 19. -/
theorem move_shape_oversized_double_clamp_witness :
    (DA_WIDTH - half_size ⟨"BLUE", 0, 135, 250⟩ < half_size ⟨"BLUE", 0, 135, 250⟩ ∧
     (⟨"BLUE", 0, 135, 250⟩ : Shape).x + (-1) < half_size ⟨"BLUE", 0, 135, 250⟩ ∧
     (move_shape ⟨"BLUE", 0, 135, 250⟩ (-1) 2).1.x = DA_WIDTH - half_size ⟨"BLUE", 0, 135, 250⟩ ∧
     (move_shape ⟨"BLUE", 0, 135, 250⟩ (-1) 2).2.1 = -(-1)) ∧
    (DA_HEIGHT - half_size ⟨"BLUE", 0, 0, 500⟩ < half_size ⟨"BLUE", 0, 0, 500⟩ ∧
     (⟨"BLUE", 0, 0, 500⟩ : Shape).y + (-1) < half_size ⟨"BLUE", 0, 0, 500⟩ ∧
     (move_shape ⟨"BLUE", 0, 0, 500⟩ 1 (-1)).1.y = DA_HEIGHT - half_size ⟨"BLUE", 0, 0, 500⟩ ∧
     (move_shape ⟨"BLUE", 0, 0, 500⟩ 1 (-1)).2.2 = -(-1)) :=
  ⟨⟨by decide, by decide,
    (move_shape_oversized_double_clamp ⟨"BLUE", 0, 135, 250⟩ (-1) 2).1
      (by decide) (by decide)⟩,
   ⟨by decide, by decide,
    (move_shape_oversized_double_clamp ⟨"BLUE", 0, 0, 500⟩ 1 (-1)).2
      (by decide) (by decide)⟩⟩

/-- Output line alphabet of the control loop: one constructor per println
or error call in the commented loop body of main.rs.  The exact format
strings are abstracted; each constructor carries the data the source
would print. -/
inductive Line where
  | doneLine : Line
  | sampleLine (topic color : String) (x y size : Int) : Line
  | disposedLine (key : String) : Line
  | takeErrLine (e : String) : Line
  | readerStatusLine (status : String) : Line
  | writerStatusLine (status : String) : Line
  | noReaderLine : Line
  | noWriterLine : Line
  | unexpectedTokenLine (tok : Nat) : Line
  | writeFailedLine : Line
deriving DecidableEq, Repr

/-- One outcome of reader.take_next_sample() combined with into_value:
a live sample, a disposed key, no more data, or a read error. -/
inductive TakeResult where
  | sample (s : Shape) : TakeResult
  | disposed (key : String) : TakeResult
  | noData : TakeResult
  | takeErr (e : String) : TakeResult
deriving DecidableEq, Repr

/-- One polled event, tagged by its readiness token, together with the
outcomes that the non-blocking endpoint calls of its branch would
produce: for STOP_PROGRAM whether stop_receiver.try_recv() returns Ok,
for READER_READY the successive results of take_next_sample, and for
the two status tokens the successive Some payloads of try_recv_status. -/
inductive Event where
  | stopProgram (recvOk : Bool) : Event
  | readerReady (takes : List TakeResult) : Event
  | readerStatusReady (statuses : List String) : Event
  | writerStatusReady (statuses : List String) : Event
  | otherToken (tok : Nat) : Event
deriving DecidableEq, Repr

/-- The READER_READY inner drain loop of main.rs: take_next_sample until
Ok(None); a live sample prints a formatted line, a disposed key prints a
disposal notice, an error prints a DataReader error line and the loop
continues. -/
def drainTakes (topic : String) : List TakeResult → List Line
  | [] => []
  | TakeResult.noData :: _ => []
  | TakeResult.sample s :: rest =>
      Line.sampleLine topic s.color s.x s.y s.shapesize :: drainTakes topic rest
  | TakeResult.disposed k :: rest => Line.disposedLine k :: drainTakes topic rest
  | TakeResult.takeErr e :: rest => Line.takeErrLine e :: drainTakes topic rest

/-- Dispatch of one polled event in the for loop over events: returns the
lines the branch prints and whether the branch executes the return
statement (only a successful STOP_PROGRAM receive does).  The Err branch
of the STOP_PROGRAM receive does nothing at all, exactly as in the
source. -/
def dispatchEvent (hasReader hasWriter : Bool) (topic : String) : Event → List Line × Bool
  | Event.stopProgram true => ([Line.doneLine], true)
  | Event.stopProgram false => ([], false)
  | Event.readerReady takes =>
      if hasReader then (drainTakes topic takes, false) else ([Line.noReaderLine], false)
  | Event.readerStatusReady sts =>
      if hasReader then (sts.map Line.readerStatusLine, false) else ([Line.noReaderLine], false)
  | Event.writerStatusReady sts =>
      if hasWriter then (sts.map Line.writerStatusLine, false) else ([Line.noWriterLine], false)
  | Event.otherToken t => ([Line.unexpectedTokenLine t], false)

/-- Processing of the polled event list in order, stopping at the first
event whose branch returns from main. -/
def processEvents (hasReader hasWriter : Bool) (topic : String) : List Event → List Line × Bool
  | [] => ([], false)
  | ev :: rest =>
      let d := dispatchEvent hasReader hasWriter topic ev
      if d.2 then (d.1, true)
      else
        let r := processEvents hasReader hasWriter topic rest
        (d.1 ++ r.1, r.2)

/-- The write step at the bottom of the loop body, for a configured
writer: if more than 200 milliseconds have passed since last_write, call
writer.write, log an error line when the write fails, and set last_write
to now regardless of the write outcome; otherwise leave last_write
unchanged and print nothing.  Instants are milliseconds. -/
def writeStep (lastWrite now : Nat) (writeOk : Bool) : Nat × List Line :=
  if lastWrite + 200 < now then
    (now, if writeOk then [] else [Line.writeFailedLine])
  else (lastWrite, [])

/-- Mutable state of the control loop: the current shape sample, the two
velocity components and the last_write instant (milliseconds). -/
structure LoopState where
  shape : Shape
  x_vel : Int
  y_vel : Int
  last_write : Nat
deriving DecidableEq, Repr

/-- One iteration of the commented control loop after poll returns: the
event dispatch loop (whose STOP_PROGRAM branch can return from main),
then the unconditional move_shape step, then the timed write step when a
writer is configured.  Returns the new state, the printed lines and
whether the program returned. -/
def runIteration (hasReader hasWriter : Bool) (topic : String) (st : LoopState)
    (evs : List Event) (now : Nat) (writeOk : Bool) : LoopState × List Line × Bool :=
  let d := processEvents hasReader hasWriter topic evs
  if d.2 then (st, d.1, true)
  else
    let m := move_shape st.shape st.x_vel st.y_vel
    if hasWriter then
      let w := writeStep st.last_write now writeOk
      ({ shape := m.1, x_vel := m.2.1, y_vel := m.2.2, last_write := w.1 }, d.1 ++ w.2, false)
    else
      ({ shape := m.1, x_vel := m.2.1, y_vel := m.2.2, last_write := st.last_write }, d.1, false)

/-- The set of possible outcomes of one velocity component draw at
startup: if random() then gen_range(1..5) else gen_range(-5..-1), where
gen_range on a half-open range a..b returns v with a ≤ v < b. -/
def velPossible (v : Int) : Bool :=
  (1 ≤ v && v < 5) || (-5 ≤ v && v < -1)

/-- The prefix of take results the drain loop actually consumes:
everything before the first Ok(None). -/
def takenPrefix : List TakeResult → List TakeResult
  | [] => []
  | TakeResult.noData :: _ => []
  | t :: rest => t :: takenPrefix rest

/-- Whether a take result is an error. -/
def isTakeErr : TakeResult → Bool
  | TakeResult.takeErr _ => true
  | _ => false

/-- Whether a line is a DataReader error line. -/
def isTakeErrLine : Line → Bool
  | Line.takeErrLine _ => true
  | _ => false

/-- Helper: the drain loop prints one DataReader error line per failing
take it consumes. -/
theorem drainTakes_countP (topic : String) (ts : List TakeResult) :
    (drainTakes topic ts).countP isTakeErrLine = (takenPrefix ts).countP isTakeErr := by
  induction ts with
  | nil => rfl
  | cons t rest ih =>
      cases t <;>
        simp [drainTakes, takenPrefix, isTakeErr, isTakeErrLine, List.countP_cons, ih]

/-- Helper: the only event whose dispatch branch returns from main is a
successful shutdown receive. -/
theorem dispatchEvent_stops_iff (hasReader hasWriter : Bool) (topic : String) (ev : Event) :
    (dispatchEvent hasReader hasWriter topic ev).2 = true ↔ ev = Event.stopProgram true := by
  cases ev with
  | stopProgram b => cases b <;> simp [dispatchEvent]
  | readerReady takes => simp [dispatchEvent, apply_ite]
  | readerStatusReady sts => simp [dispatchEvent, apply_ite]
  | writerStatusReady sts => simp [dispatchEvent, apply_ite]
  | otherToken t => simp [dispatchEvent]

/-- Counterexample to claim C3: with last_write 0 at now 300 and a
failing write, the write step logs the failure but still sets last_write
to 300 rather than keeping 0, so a failed write does reset the publish
timer. -/
theorem writeStep_failed_write_updates_timer :
    (writeStep 0 300 false).1 = 300 ∧
    (writeStep 0 300 false).2 = [Line.writeFailedLine] ∧ (300 : Nat) ≠ 0 := by
  decide

/-- Claim C3 amended: once the publish interval has elapsed, the write
step sets last_write to now regardless of whether the write succeeded,
logging an error line on failure; when the interval has not elapsed,
last_write is unchanged and nothing is printed. -/
theorem writeStep_update (lastWrite now : Nat) (ok : Bool) :
    (lastWrite + 200 < now →
      (writeStep lastWrite now ok).1 = now ∧
      (ok = false → (writeStep lastWrite now ok).2 = [Line.writeFailedLine])) ∧
    (¬ lastWrite + 200 < now → writeStep lastWrite now ok = (lastWrite, [])) := by
  refine ⟨fun h => ⟨?_, fun hok => ?_⟩, fun h => ?_⟩ <;> simp [writeStep, h, *]

/-- Witness for the amended C3 at last_write 0, now 300, with a failing
write. -/
theorem writeStep_update_witness :
    (0 : Nat) + 200 < 300 ∧ (writeStep 0 300 false).1 = 300 :=
  ⟨by decide, ((writeStep_update 0 300 false).1 (by decide)).1⟩

/-- Counterexample to claim C4: -5 is a possible outcome of the negative
branch gen_range(-5..-1) of the velocity lottery, and its magnitude is 5,
not at most 4. -/
theorem velPossible_magnitude_five :
    velPossible (-5) = true ∧ ¬ ((-5 : Int).natAbs ≤ 4) := by decide

/-- Claim C4 amended: every possible outcome of one startup velocity
component draw is non-zero with magnitude between 1 and 5 inclusive (the
positive branch draws magnitudes 1 to 4, the negative branch draws
magnitudes 2 to 5). -/
theorem velPossible_nonzero_bounded (v : Int) (h : velPossible v = true) :
    v ≠ 0 ∧ 1 ≤ v.natAbs ∧ v.natAbs ≤ 5 := by
  simp [velPossible] at h
  rcases h with ⟨h1, h2⟩ | ⟨h1, h2⟩ <;> omega

/-- Witness for the amended C4 at the draw outcome 3. -/
theorem velPossible_nonzero_bounded_witness :
    velPossible 3 = true ∧
    ((3 : Int) ≠ 0 ∧ 1 ≤ (3 : Int).natAbs ∧ (3 : Int).natAbs ≤ 5) :=
  ⟨by decide, velPossible_nonzero_bounded 3 (by decide)⟩

/-- Counterexample to claim C5: a failing receive on the shutdown channel
(the Err branch of the STOP_PROGRAM match) produces no log line at all,
and the loop continues. -/
theorem stop_recv_error_unlogged :
    dispatchEvent true true "Square" (Event.stopProgram false) = ([], false) := rfl

/-- Claim C5 amended: every failing take consumed by the drain loop
produces its own DataReader error line, a failing write after the
publish interval elapsed produces a DataWriter error line, and the only
event whose branch terminates the loop is a successful shutdown receive;
however, a failing receive on the shutdown channel itself is silently
ignored, with no log line. -/
theorem loop_errors_logged (hasReader hasWriter : Bool) (topic : String)
    (ts : List TakeResult) (ev : Event) (lastWrite now : Nat)
    (h : lastWrite + 200 < now) :
    (drainTakes topic ts).countP isTakeErrLine = (takenPrefix ts).countP isTakeErr ∧
    ((dispatchEvent hasReader hasWriter topic ev).2 = true ↔ ev = Event.stopProgram true) ∧
    Line.writeFailedLine ∈ (writeStep lastWrite now false).2 ∧
    dispatchEvent hasReader hasWriter topic (Event.stopProgram false) = ([], false) :=
  ⟨drainTakes_countP topic ts, dispatchEvent_stops_iff hasReader hasWriter topic ev,
   by simp [writeStep, h], rfl⟩

/-- Witness for the amended C5: a drain consuming one failing take, the
shutdown event with a failed receive, and a failing write at now 300. -/
theorem loop_errors_logged_witness :
    (0 : Nat) + 200 < 300 ∧
    (drainTakes "Square" [TakeResult.takeErr "e", TakeResult.noData]).countP isTakeErrLine
      = (takenPrefix [TakeResult.takeErr "e", TakeResult.noData]).countP isTakeErr ∧
    Line.writeFailedLine ∈ (writeStep 0 300 false).2 :=
  ⟨by decide,
   (loop_errors_logged true true "Square" [TakeResult.takeErr "e", TakeResult.noData]
      (Event.stopProgram false) 0 300 (by decide)).1,
   (loop_errors_logged true true "Square" [TakeResult.takeErr "e", TakeResult.noData]
      (Event.stopProgram false) 0 300 (by decide)).2.2.1⟩

/-- Helper: processing an event list that contains a successful shutdown
receive, none of whose earlier events stops the loop, prints the lines
of the earlier events followed by the termination message and stops,
ignoring all later events. -/
theorem processEvents_stop (hasReader hasWriter : Bool) (topic : String)
    (pre post : List Event) (hpre : Event.stopProgram true ∉ pre) :
    processEvents hasReader hasWriter topic (pre ++ Event.stopProgram true :: post)
      = ((processEvents hasReader hasWriter topic pre).1 ++ [Line.doneLine], true) := by
  induction pre with
  | nil => rfl
  | cons ev rest ih =>
      simp only [List.mem_cons, not_or] at hpre
      obtain ⟨h1, h2⟩ := hpre
      have hstop : (dispatchEvent hasReader hasWriter topic ev).2 = false := by
        rcases Bool.eq_false_or_eq_true (dispatchEvent hasReader hasWriter topic ev).2 with
          h | h
        · exact absurd ((dispatchEvent_stops_iff hasReader hasWriter topic ev).mp h).symm h1
        · exact h
      simp [processEvents, hstop, ih h2, List.cons_append]

/-- Claim C8: when the polled event list contains a successful shutdown
receive with no stopping event before it, the iteration prints exactly
the lines of the earlier events followed by the termination message,
sets the stopped flag, leaves the loop state untouched (no motion step,
no write, no publish-timer change), and processes none of the later
events. -/
theorem shutdown_stops_iteration (hasReader hasWriter : Bool) (topic : String)
    (st : LoopState) (pre post : List Event) (now : Nat) (writeOk : Bool)
    (hpre : Event.stopProgram true ∉ pre) :
    runIteration hasReader hasWriter topic st (pre ++ Event.stopProgram true :: post) now writeOk
      = (st, (processEvents hasReader hasWriter topic pre).1 ++ [Line.doneLine], true) := by
  simp [runIteration, processEvents_stop hasReader hasWriter topic pre post hpre]

/-- Witness for C8: one reader-status event before the shutdown event,
one unexpected-token event after it. -/
theorem shutdown_stops_iteration_witness :
    Event.stopProgram true ∉ [Event.readerStatusReady ["s"]] ∧
    runIteration true true "Square" ⟨blueShape, 3, -4, 0⟩
        ([Event.readerStatusReady ["s"]] ++ Event.stopProgram true :: [Event.otherToken 7])
        300 true
      = (⟨blueShape, 3, -4, 0⟩,
         (processEvents true true "Square" [Event.readerStatusReady ["s"]]).1 ++ [Line.doneLine],
         true) :=
  ⟨by decide,
   shutdown_stops_iteration true true "Square" ⟨blueShape, 3, -4, 0⟩
     [Event.readerStatusReady ["s"]] [Event.otherToken 7] 300 true (by decide)⟩
